import Mathlib

/-!
Shallow embedding of the semantic-search and rank-fusion core of the
Eurika repository (an IT-problems tracker backend), together with proofs
of the specified properties.

JavaScript numbers are modelled as real numbers (`ℝ`) where the code
performs transcendental operations (square roots, logarithms), and as
rational numbers (`ℚ`) for the purely order/arithmetic rank-fusion layer,
so that concrete instances can be evaluated.  Fallible JavaScript code
(functions that `throw`) is modelled with `Except String`; a JavaScript
`try/catch` that converts a failure into `null` is modelled with `Option`.
Asynchronous results that have been settled by `Promise.allSettled` are
modelled by the `Settled` type below.
-/

namespace Eurika

/-! ## Modelling JavaScript builtins -/

/-- Model of JavaScript `String.prototype.trim`: remove whitespace from
both ends of the string. -/
def jsTrim (s : String) : String :=
  ⟨((s.data.dropWhile Char.isWhitespace).reverse.dropWhile Char.isWhitespace).reverse⟩

/-- Model of the JavaScript logical-or `x || fallback` applied to a
possibly-absent (`undefined`) number: `undefined` and `0` are falsy, every
other number is truthy. -/
def jsOr (x : Option ℚ) (fallback : ℚ) : ℚ :=
  match x with
  | none => fallback
  | some r => if r = 0 then fallback else r

/-! ## embeddingService.js -/

/-- Sum of squares of a vector of reals; the quantity accumulated in
`norm1`/`norm2` by the loop of `cosineSimilarity` (its square root is the
L2 norm). -/
def sumSq (v : List ℝ) : ℝ := (v.map (fun x => x * x)).sum

/-- Dot product accumulated by the loop of `cosineSimilarity`. -/
def dotProduct (v w : List ℝ) : ℝ := (List.zipWith (fun a b => a * b) v w).sum

/-- `cosineSimilarity(vec1, vec2)` from `embeddingService.js`: throws when
the two vectors have different lengths, returns `0` when the product of
the two norms is zero, and otherwise the dot product divided by the
product of the norms. -/
noncomputable def cosineSimilarity (vec1 vec2 : List ℝ) : Except String ℝ :=
  if vec1.length ≠ vec2.length then
    Except.error "Vektoren müssen gleiche Länge haben"
  else
    let magnitude := Real.sqrt (sumSq vec1) * Real.sqrt (sumSq vec2)
    if magnitude = 0 then Except.ok 0
    else Except.ok (dotProduct vec1 vec2 / magnitude)

/-- `generateEmbedding(text, dimensions)` from `embeddingService.js`.  The
underlying transformer model (an external collaborator invoked through
`await model(cleanedText, ...)`) is passed in as the function `model`;
the code rejects empty input before the model is consulted, and pads with
zeros or truncates a model output of unexpected length. -/
def generateEmbedding (model : String → List ℝ) (text : String) (dimensions : ℕ) :
    Except String (List ℝ) :=
  if text = "" then Except.error "Text muss ein nicht-leerer String sein"
  else
    let cleanedText := jsTrim text
    if cleanedText.length = 0 then Except.error "Text ist leer nach Bereinigung"
    else
      let embedding := model cleanedText
      if embedding.length ≠ dimensions then
        if embedding.length < dimensions then
          Except.ok (embedding ++ List.replicate (dimensions - embedding.length) 0)
        else
          Except.ok (embedding.take dimensions)
      else
        Except.ok embedding

/-! ## supabaseService.js : semanticSearch -/

/-- Result of `JSON.parse` on a stored vector string: either a numeric
array or some other JSON value (the code checks `Array.isArray`). -/
inductive JsonVal where
  | arr : List ℝ → JsonVal
  | other : JsonVal

/-- The `vector` column value of an `embeddings` row as delivered by the
store: either already a numeric array, or a textual serialization that
still needs parsing (the pgvector string format). -/
inductive DbVec where
  | arr : List ℝ → DbVec
  | str : String → DbVec

/-- A row of the `embeddings` table as selected by `semanticSearch`. -/
structure EmbRow where
  id : ℕ
  problem_id : ℕ
  vector : DbVec

/-- One `{ problem_id, similarity }` candidate produced by the similarity
pass of `semanticSearch`. -/
structure SimEntry (α : Type) where
  problem_id : ℕ
  similarity : α
  deriving DecidableEq, Repr

/-- The body of the `embeddings.map(...)` callback in `semanticSearch`
(lines 112-148 of `supabaseService.js`): parse a string-serialized vector,
drop non-array values, repair the length to 384 when it does not match the
query embedding, and compute the cosine similarity.  The surrounding
`try/catch` that turns any thrown error into `null` is modelled by
`Option`; `jsonParse` models the external `JSON.parse` builtin. -/
noncomputable def rowSimilarity (jsonParse : String → Except String JsonVal)
    (queryEmbedding : List ℝ) (emb : EmbRow) : Option (SimEntry ℝ) :=
  let parsed : Except String JsonVal :=
    match emb.vector with
    | DbVec.arr v => Except.ok (JsonVal.arr v)
    | DbVec.str s => jsonParse s
  match parsed with
  | Except.error _ => none
  | Except.ok JsonVal.other => none
  | Except.ok (JsonVal.arr v) =>
    let dbVector :=
      if v.length ≠ queryEmbedding.length then
        if v.length < 384 then v ++ List.replicate (384 - v.length) 0
        else v.take 384
      else v
    match cosineSimilarity queryEmbedding dbVector with
    | Except.error _ => none
    | Except.ok sim => some ⟨emb.problem_id, sim⟩

/-- The `similarities` list of `semanticSearch`:
`embeddings.map(...).filter(s => s !== null)`. -/
noncomputable def computeSimilarities (jsonParse : String → Except String JsonVal)
    (queryEmbedding : List ℝ) (embeddings : List EmbRow) : List (SimEntry ℝ) :=
  (embeddings.map (rowSimilarity jsonParse queryEmbedding)).reduceOption

/-- The sort order used by the comparator
`(a, b) => b.similarity - a.similarity` of `semanticSearch`: `a` may
precede `b` exactly when the comparator is non-positive. -/
def simLE {α : Type} [LinearOrder α] (a b : SimEntry α) : Bool :=
  decide (b.similarity ≤ a.similarity)

/-- The `topMatches` ranking step of `semanticSearch`
(lines 152-155 of `supabaseService.js`):
`similarities.filter(item => item.similarity >= threshold)
             .sort((a, b) => b.similarity - a.similarity)
             .slice(0, limit)`.
The JavaScript sort with comparator `b.similarity - a.similarity` is a
stable descending sort, modelled by `List.mergeSort`. -/
def topMatches {α : Type} [LinearOrder α]
    (similarities : List (SimEntry α)) (threshold : α) (lim : ℕ) : List (SimEntry α) :=
  ((similarities.filter (fun item => threshold ≤ item.similarity)).mergeSort simLE).take lim

/-! ## externalSourcesService.js -/

/-- An internal-DB hit as produced by `semanticSearch` and consumed by
`combineAndRankResults`: it carries a `relevance_score` (possibly absent,
as the JavaScript reads an optional field) and a `similarity`. -/
structure InternalItem where
  problem_id : ℕ
  relevance_score : Option ℚ
  similarity : ℚ
  deriving DecidableEq, Repr

/-- A formatted Stack Overflow hit as consumed by
`combineAndRankResults`: it carries its computed `relevance_score`. -/
structure StackOverflowItem where
  title : String
  relevance_score : ℚ
  deriving DecidableEq, Repr

/-- A formatted YouTube hit as consumed by `combineAndRankResults`; no
native relevance signal. -/
structure YouTubeItem where
  title : String
  deriving DecidableEq, Repr

/-- The originating payload of a fused result (the JavaScript spreads the
original item into the fused object). -/
inductive FusedPayload where
  | internal : InternalItem → FusedPayload
  | stackoverflow : StackOverflowItem → FusedPayload
  | youtube : YouTubeItem → FusedPayload
  deriving DecidableEq, Repr

/-- An element of the fused `all` list in `combineAndRankResults`: the
original item plus its `rank_score`. -/
structure FusedItem where
  payload : FusedPayload
  rank_score : ℚ
  deriving DecidableEq, Repr

/-- The sort order used by `all.sort((a, b) => b.rank_score - a.rank_score)`:
`a` may precede `b` exactly when the comparator is non-positive. -/
def rankLE (a b : FusedItem) : Bool := decide (b.rank_score ≤ a.rank_score)

/-- The `all` list built by the three `forEach`/`push` loops of
`combineAndRankResults`: every candidate from the three sources with its
source-weighted `rank_score`
(`(item.relevance_score || item.similarity * 100) + 100` for internal
hits, `item.relevance_score` for Stack Overflow hits, the constant `30`
for YouTube hits). -/
def allCandidates (internal : List InternalItem)
    (stackoverflow : List StackOverflowItem) (youtube : List YouTubeItem) :
    List FusedItem :=
  internal.map (fun item =>
    ⟨FusedPayload.internal item, jsOr item.relevance_score (item.similarity * 100) + 100⟩)
  ++ stackoverflow.map (fun item =>
    ⟨FusedPayload.stackoverflow item, item.relevance_score⟩)
  ++ youtube.map (fun item =>
    ⟨FusedPayload.youtube item, 30⟩)

/-- `combineAndRankResults(internal, stackoverflow, youtube)` from
`externalSourcesService.js`: place every candidate from the three sources
into one list with its source-weighted `rank_score`, sort descending by
`rank_score` (stably) with `all.sort((a, b) => b.rank_score - a.rank_score)`
and keep the top 10 (`all.slice(0, 10)`). -/
def combineAndRankResults (internal : List InternalItem)
    (stackoverflow : List StackOverflowItem) (youtube : List YouTubeItem) :
    List FusedItem :=
  ((allCandidates internal stackoverflow youtube).mergeSort rankLE).take 10

/-- Outcome of one promise as delivered by `Promise.allSettled`. -/
inductive Settled (α : Type) where
  | fulfilled : α → Settled α
  | rejected : String → Settled α

/-- The object returned by `searchAllSources` (the nested
`sources.<name>.{count, results}` shape is flattened into fields). -/
structure CombinedResult where
  query : String
  timestamp : String
  total_results : ℕ
  internal_count : ℕ
  internal_results : List InternalItem
  stackoverflow_count : ℕ
  stackoverflow_results : List StackOverflowItem
  youtube_count : ℕ
  youtube_results : List YouTubeItem
  top_results : List FusedItem

/-- `searchAllSources(query, supabaseSearchFn, options)` from
`externalSourcesService.js`, taken after `Promise.allSettled` has settled
the three concurrently issued source calls (internal search, Stack
Overflow, YouTube): each argument is that source's settled outcome.  A
rejected outcome is replaced by the empty list
(`r.status === 'fulfilled' ? r.value : []`), counts are the list lengths,
and `top_results` is the fused ranking. -/
def searchAllSources (query : String) (timestamp : String)
    (internalResults : Settled (List InternalItem))
    (stackOverflowResults : Settled (List StackOverflowItem))
    (youtubeResults : Settled (List YouTubeItem)) : Except String CombinedResult :=
  if query = "" then Except.error "Query muss ein nicht-leerer String sein"
  else
    let internal := match internalResults with
      | Settled.fulfilled v => v
      | Settled.rejected _ => []
    let stackoverflow := match stackOverflowResults with
      | Settled.fulfilled v => v
      | Settled.rejected _ => []
    let youtube := match youtubeResults with
      | Settled.fulfilled v => v
      | Settled.rejected _ => []
    Except.ok
      { query := query
        timestamp := timestamp
        total_results := internal.length + stackoverflow.length + youtube.length
        internal_count := internal.length
        internal_results := internal
        stackoverflow_count := stackoverflow.length
        stackoverflow_results := stackoverflow
        youtube_count := youtube.length
        youtube_results := youtube
        top_results := combineAndRankResults internal stackoverflow youtube }

/-- A Stack Overflow API item as consumed by
`calculateStackOverflowRelevance`. -/
structure SOApiItem where
  score : ℝ
  answer_count : ℝ
  is_answered : Bool
  accepted_answer_id : Option ℕ
  view_count : ℝ
  creation_date : ℝ

/-- `calculateStackOverflowRelevance(item)` from
`externalSourcesService.js`: vote score times 5, answer count times 10, a
bonus of 20 for answered questions, 30 for an accepted answer, a
logarithmic view-count term, and 10 extra when the question is younger
than 365 days.  `Date.now()` (milliseconds) is passed in as `now`;
`item.creation_date` is in seconds, as delivered by the Stack Exchange
API. -/
noncomputable def calculateStackOverflowRelevance (now : ℝ) (item : SOApiItem) : ℤ :=
  let score : ℝ := 0
  let score := score + item.score * 5
  let score := score + item.answer_count * 10
  let score := if item.is_answered then score + 20 else score
  let score := if item.accepted_answer_id.isSome then score + 30 else score
  let score := score + Real.logb 10 (item.view_count + 1) * 5
  let ageInDays := (now - item.creation_date * 1000) / (1000 * 60 * 60 * 24)
  let score := if ageInDays < 365 then score + 10 else score
  round score

/-! ## Basic lemmas about the similarity engine -/

lemma sumSq_nil : sumSq [] = 0 := rfl

lemma sumSq_cons (x : ℝ) (xs : List ℝ) : sumSq (x :: xs) = x * x + sumSq xs := by
  simp [sumSq]

lemma sumSq_nonneg (v : List ℝ) : 0 ≤ sumSq v := by
  induction v with
  | nil => simp [sumSq_nil]
  | cons x xs ih =>
    rw [sumSq_cons]
    nlinarith [mul_self_nonneg x]

lemma sumSq_eq_zero_iff (v : List ℝ) : sumSq v = 0 ↔ ∀ x ∈ v, x = 0 := by
  induction v with
  | nil => simp [sumSq_nil]
  | cons x xs ih =>
    rw [sumSq_cons]
    constructor
    · intro h
      have hx2 : 0 ≤ x * x := mul_self_nonneg x
      have hxs : 0 ≤ sumSq xs := sumSq_nonneg xs
      have hx : x * x = 0 := by linarith
      have hx0 : x = 0 := by nlinarith
      have hxs0 : sumSq xs = 0 := by linarith
      intro y hy
      rcases List.mem_cons.mp hy with hy | hy
      · exact hy ▸ hx0
      · exact ih.mp hxs0 y hy
    · intro h
      have hx0 : x = 0 := h x (List.mem_cons_self x xs)
      have hxs0 : sumSq xs = 0 := ih.mpr (fun y hy => h y (List.mem_cons_of_mem x hy))
      rw [hx0, hxs0]
      ring

lemma sumSq_append (v w : List ℝ) : sumSq (v ++ w) = sumSq v + sumSq w := by
  simp [sumSq]

lemma sumSq_replicate_zero (n : ℕ) : sumSq (List.replicate n (0:ℝ)) = 0 := by
  simp [sumSq, List.map_replicate]

lemma cosineSimilarity_ok_of_length_eq {vec1 vec2 : List ℝ}
    (h : vec1.length = vec2.length) : ∃ r, cosineSimilarity vec1 vec2 = Except.ok r := by
  unfold cosineSimilarity
  rw [if_neg (by simp [h])]
  by_cases hm : Real.sqrt (sumSq vec1) * Real.sqrt (sumSq vec2) = 0
  · exact ⟨0, by simp [hm]⟩
  · exact ⟨dotProduct vec1 vec2 / (Real.sqrt (sumSq vec1) * Real.sqrt (sumSq vec2)),
      by simp [hm]⟩

lemma cosineSimilarity_error_of_length_ne {vec1 vec2 : List ℝ}
    (h : vec1.length ≠ vec2.length) :
    cosineSimilarity vec1 vec2 = Except.error "Vektoren müssen gleiche Länge haben" := by
  unfold cosineSimilarity
  rw [if_pos h]

/-! ## Lemmas about the stable descending sorts -/

lemma filter_mergeSort_of_tied {β : Type} (le : β → β → Bool)
    (htrans : ∀ a b c : β, le a b → le b c → le a c)
    (htotal : ∀ a b : β, le a b || le b a)
    (l : List β) (p : β → Bool) (hp : ∀ a b, p a → p b → le a b) :
    (l.mergeSort le).filter p = l.filter p := by
  have hpw : (l.filter p).Pairwise (fun a b => le a b) := by
    apply List.pairwise_of_forall_mem_list
    intro a ha b hb
    exact hp a b (List.of_mem_filter ha) (List.of_mem_filter hb)
  have hsub : (l.filter p).Sublist (l.mergeSort le) :=
    List.sublist_mergeSort htrans htotal hpw (List.filter_sublist l)
  have heq : (l.filter p).filter p = l.filter p := by
    simp [List.filter_filter]
  have hsub2 : (l.filter p).Sublist ((l.mergeSort le).filter p) := heq ▸ hsub.filter p
  have hlen : ((l.mergeSort le).filter p).length = (l.filter p).length :=
    ((List.mergeSort_perm l le).filter p).length_eq
  exact (hsub2.eq_of_length hlen.symm).symm

lemma rankLE_trans : ∀ a b c : FusedItem, rankLE a b → rankLE b c → rankLE a c := by
  intro a b c hab hbc
  simp only [rankLE, decide_eq_true_eq] at *
  exact le_trans hbc hab

lemma rankLE_total : ∀ a b : FusedItem, rankLE a b || rankLE b a := by
  intro a b
  simp only [rankLE, Bool.or_eq_true, decide_eq_true_eq]
  exact le_total b.rank_score a.rank_score

lemma simLE_trans {α : Type} [LinearOrder α] :
    ∀ a b c : SimEntry α, simLE a b → simLE b c → simLE a c := by
  intro a b c hab hbc
  simp only [simLE, decide_eq_true_eq] at *
  exact le_trans hbc hab

lemma simLE_total {α : Type} [LinearOrder α] :
    ∀ a b : SimEntry α, simLE a b || simLE b a := by
  intro a b
  simp only [simLE, Bool.or_eq_true, decide_eq_true_eq]
  exact le_total b.similarity a.similarity

/-! ## Lemmas about the fused candidate list -/

lemma allCandidates_length (internal : List InternalItem)
    (stackoverflow : List StackOverflowItem) (youtube : List YouTubeItem) :
    (allCandidates internal stackoverflow youtube).length =
      internal.length + stackoverflow.length + youtube.length := by
  simp [allCandidates]
  omega

lemma mem_allCandidates {internal : List InternalItem}
    {stackoverflow : List StackOverflowItem} {youtube : List YouTubeItem}
    {f : FusedItem} (hf : f ∈ allCandidates internal stackoverflow youtube) :
    (∃ item ∈ internal,
        f = ⟨FusedPayload.internal item, jsOr item.relevance_score (item.similarity * 100) + 100⟩)
    ∨ (∃ item ∈ stackoverflow, f = ⟨FusedPayload.stackoverflow item, item.relevance_score⟩)
    ∨ (∃ item ∈ youtube, f = ⟨FusedPayload.youtube item, 30⟩) := by
  simp only [allCandidates, List.mem_append, List.mem_map] at hf
  rcases hf with (⟨item, hmem, heq⟩ | ⟨item, hmem, heq⟩) | ⟨item, hmem, heq⟩
  · exact Or.inl ⟨item, hmem, heq.symm⟩
  · exact Or.inr (Or.inl ⟨item, hmem, heq.symm⟩)
  · exact Or.inr (Or.inr ⟨item, hmem, heq.symm⟩)

lemma mem_of_mem_combine {internal : List InternalItem}
    {stackoverflow : List StackOverflowItem} {youtube : List YouTubeItem}
    {f : FusedItem} (hf : f ∈ combineAndRankResults internal stackoverflow youtube) :
    f ∈ allCandidates internal stackoverflow youtube := by
  have h1 : f ∈ (allCandidates internal stackoverflow youtube).mergeSort rankLE :=
    (List.take_sublist _ _).subset hf
  exact List.mem_mergeSort.mp h1

lemma combine_sorted (internal : List InternalItem)
    (stackoverflow : List StackOverflowItem) (youtube : List YouTubeItem) :
    (combineAndRankResults internal stackoverflow youtube).Pairwise
      (fun a b => b.rank_score ≤ a.rank_score) := by
  have h : ((allCandidates internal stackoverflow youtube).mergeSort rankLE).Pairwise
      (fun a b => rankLE a b) :=
    List.sorted_mergeSort rankLE_trans rankLE_total _
  have h2 : ((allCandidates internal stackoverflow youtube).mergeSort rankLE).Pairwise
      (fun a b => b.rank_score ≤ a.rank_score) :=
    h.imp (fun hab => by simpa [rankLE] using hab)
  exact h2.sublist (List.take_sublist _ _)

lemma combine_length_le (internal : List InternalItem)
    (stackoverflow : List StackOverflowItem) (youtube : List YouTubeItem) :
    (combineAndRankResults internal stackoverflow youtube).length ≤ 10 :=
  List.length_take_le _ _

lemma combine_scores {internal : List InternalItem}
    {stackoverflow : List StackOverflowItem} {youtube : List YouTubeItem}
    {f : FusedItem} (hf : f ∈ combineAndRankResults internal stackoverflow youtube) :
    (∀ item, f.payload = FusedPayload.internal item →
        item ∈ internal ∧ f.rank_score = jsOr item.relevance_score (item.similarity * 100) + 100)
    ∧ (∀ item, f.payload = FusedPayload.stackoverflow item →
        item ∈ stackoverflow ∧ f.rank_score = item.relevance_score)
    ∧ (∀ item, f.payload = FusedPayload.youtube item →
        item ∈ youtube ∧ f.rank_score = 30) := by
  rcases mem_allCandidates (mem_of_mem_combine hf) with
    ⟨item, hmem, heq⟩ | ⟨item, hmem, heq⟩ | ⟨item, hmem, heq⟩ <;> subst heq
  · refine ⟨?_, ?_, ?_⟩
    · intro item' hpay
      simp only [FusedPayload.internal.injEq] at hpay
      exact hpay ▸ ⟨hmem, rfl⟩
    · intro item' hpay
      simp at hpay
    · intro item' hpay
      simp at hpay
  · refine ⟨?_, ?_, ?_⟩
    · intro item' hpay
      simp at hpay
    · intro item' hpay
      simp only [FusedPayload.stackoverflow.injEq] at hpay
      exact hpay ▸ ⟨hmem, rfl⟩
    · intro item' hpay
      simp at hpay
  · refine ⟨?_, ?_, ?_⟩
    · intro item' hpay
      simp at hpay
    · intro item' hpay
      simp at hpay
    · intro item' hpay
      simp only [FusedPayload.youtube.injEq] at hpay
      exact hpay ▸ ⟨hmem, rfl⟩

lemma string_length_eq_zero (s : String) : s.length = 0 ↔ s = "" := by
  cases s with
  | mk data =>
    constructor
    · intro h
      have hd : data = [] := List.length_eq_zero.mp h
      rw [hd]
    · intro h
      rw [h]
      rfl

lemma jsTrim_empty : jsTrim "" = "" := rfl

/-! ## Claim theorems -/

/-- Claim C4: if either input vector of `cosineSimilarity` has zero
magnitude (all components zero) the result is `0` — an ordinary return
value, not an error — and otherwise the result is the dot product divided
by the product of the two L2 norms. -/
theorem cosineSimilarity_zero_rule (vec1 vec2 : List ℝ)
    (hlen : vec1.length = vec2.length) :
    (((∀ x ∈ vec1, x = 0) ∨ (∀ x ∈ vec2, x = 0)) →
        cosineSimilarity vec1 vec2 = Except.ok 0)
    ∧ ((¬ ∀ x ∈ vec1, x = 0) → (¬ ∀ x ∈ vec2, x = 0) →
        cosineSimilarity vec1 vec2 =
          Except.ok (dotProduct vec1 vec2 /
            (Real.sqrt (sumSq vec1) * Real.sqrt (sumSq vec2)))) := by
  constructor
  · intro hzero
    unfold cosineSimilarity
    rw [if_neg (by simp [hlen])]
    have hm : Real.sqrt (sumSq vec1) * Real.sqrt (sumSq vec2) = 0 := by
      rcases hzero with hz | hz
      · have : sumSq vec1 = 0 := (sumSq_eq_zero_iff vec1).mpr hz
        rw [this, Real.sqrt_zero, zero_mul]
      · have : sumSq vec2 = 0 := (sumSq_eq_zero_iff vec2).mpr hz
        rw [this, Real.sqrt_zero, mul_zero]
    simp [hm]
  · intro h1 h2
    unfold cosineSimilarity
    rw [if_neg (by simp [hlen])]
    have hs1 : 0 < sumSq vec1 :=
      lt_of_le_of_ne (sumSq_nonneg vec1)
        (fun h => h1 ((sumSq_eq_zero_iff vec1).mp h.symm))
    have hs2 : 0 < sumSq vec2 :=
      lt_of_le_of_ne (sumSq_nonneg vec2)
        (fun h => h2 ((sumSq_eq_zero_iff vec2).mp h.symm))
    have hm : Real.sqrt (sumSq vec1) * Real.sqrt (sumSq vec2) ≠ 0 :=
      ne_of_gt (mul_pos (Real.sqrt_pos.mpr hs1) (Real.sqrt_pos.mpr hs2))
    simp [hm]

/-- Witness for C4: the zero vector `[0, 0]` against `[3, 4]` satisfies
the hypotheses and yields similarity `0`. -/
theorem cosineSimilarity_zero_rule_witness :
    (([(0:ℝ), 0].length = [(3:ℝ), 4].length) ∧ (∀ x ∈ [(0:ℝ), 0], x = 0))
    ∧ cosineSimilarity [(0:ℝ), 0] [(3:ℝ), 4] = Except.ok 0 :=
  ⟨⟨rfl, by simp⟩,
    (cosineSimilarity_zero_rule [(0:ℝ), 0] [(3:ℝ), 4] rfl).1 (Or.inl (by simp))⟩

/-- Claim C5: `cosineSimilarity` fails with the dimension-mismatch error
exactly when the two input vectors have unequal length; on equal-length
inputs it returns a numeric value without raising. -/
theorem cosineSimilarity_error_iff (vec1 vec2 : List ℝ) :
    (vec1.length = vec2.length → ∃ r, cosineSimilarity vec1 vec2 = Except.ok r)
    ∧ (vec1.length ≠ vec2.length →
        cosineSimilarity vec1 vec2 = Except.error "Vektoren müssen gleiche Länge haben") :=
  ⟨fun h => cosineSimilarity_ok_of_length_eq h,
   fun h => cosineSimilarity_error_of_length_ne h⟩

/-- Witness for C5: equal-length vectors `[1]`, `[2]` give a numeric
result; mismatched `[1]` against `[]` gives the dimension error. -/
theorem cosineSimilarity_error_iff_witness :
    (∃ r, cosineSimilarity [(1:ℝ)] [(2:ℝ)] = Except.ok r)
    ∧ cosineSimilarity [(1:ℝ)] [] = Except.error "Vektoren müssen gleiche Länge haben" :=
  ⟨(cosineSimilarity_error_iff [(1:ℝ)] [(2:ℝ)]).1 rfl,
   (cosineSimilarity_error_iff [(1:ℝ)] []).2 (by simp)⟩

/-- Claim C8: `generateEmbedding` rejects input that is empty or
whitespace-only after trimming with an empty-input error before the model
is consulted (the result is the same error for every model), and raises
no such error for input that is non-empty after trimming. -/
theorem generateEmbedding_empty_guard (text : String) :
    (jsTrim text = "" → ∃ msg, ∀ (model : String → List ℝ) (dimensions : ℕ),
        generateEmbedding model text dimensions = Except.error msg)
    ∧ (jsTrim text ≠ "" → ∀ (model : String → List ℝ) (dimensions : ℕ),
        ∃ v, generateEmbedding model text dimensions = Except.ok v) := by
  constructor
  · intro htrim
    by_cases htext : text = ""
    · exact ⟨"Text muss ein nicht-leerer String sein", fun model dimensions => by
        simp [generateEmbedding, htext]⟩
    · refine ⟨"Text ist leer nach Bereinigung", fun model dimensions => ?_⟩
      simp only [generateEmbedding]
      rw [if_neg htext, if_pos ((string_length_eq_zero _).mpr htrim)]
  · intro htrim model dimensions
    have htext : text ≠ "" := by
      intro h
      exact htrim (by rw [h]; rfl)
    simp only [generateEmbedding]
    rw [if_neg htext, if_neg (fun h => htrim ((string_length_eq_zero _).mp h))]
    by_cases hlen : (model (jsTrim text)).length ≠ dimensions
    · rw [if_pos hlen]
      by_cases hlt : (model (jsTrim text)).length < dimensions
      · exact ⟨_, by rw [if_pos hlt]⟩
      · exact ⟨_, by rw [if_neg hlt]⟩
    · rw [if_neg hlen]
      exact ⟨_, rfl⟩

/-- Witness for C8: the whitespace-only input `" "` is rejected with the
same error for two different models, and `"a"` is accepted. -/
theorem generateEmbedding_empty_guard_witness :
    (jsTrim " " = ""
      ∧ ∃ msg, ∀ (model : String → List ℝ) (dimensions : ℕ),
          generateEmbedding model " " dimensions = Except.error msg)
    ∧ (jsTrim "a" ≠ ""
      ∧ ∀ (model : String → List ℝ) (dimensions : ℕ),
          ∃ v, generateEmbedding model "a" dimensions = Except.ok v) :=
  ⟨⟨by decide, (generateEmbedding_empty_guard " ").1 (by decide)⟩,
   ⟨by decide, (generateEmbedding_empty_guard "a").2 (by decide)⟩⟩

/-- Claim C6: for input that is non-empty after trimming, and a model
that returns an L2-normalized vector, `generateEmbedding` returns exactly
384 numbers; the result keeps unit norm whenever the model output is not
longer than 384 (in particular on the expected 384-length output), a too
short model output is padded with zeros, and a too long one is truncated,
so the returned vector always has exactly 384 components. -/
theorem generateEmbedding_contract (model : String → List ℝ) (text : String)
    (h : jsTrim text ≠ "") (hnorm : sumSq (model (jsTrim text)) = 1) :
    ∃ v, generateEmbedding model text 384 = Except.ok v ∧ v.length = 384
      ∧ ((model (jsTrim text)).length ≤ 384 → sumSq v = 1)
      ∧ ((model (jsTrim text)).length < 384 →
          v = model (jsTrim text) ++ List.replicate (384 - (model (jsTrim text)).length) 0)
      ∧ (384 < (model (jsTrim text)).length → v = (model (jsTrim text)).take 384)
      ∧ ((model (jsTrim text)).length = 384 → v = model (jsTrim text)) := by
  have htext : text ≠ "" := by
    intro hh
    exact h (by rw [hh]; rfl)
  simp only [generateEmbedding]
  rw [if_neg htext, if_neg (fun hh => h ((string_length_eq_zero _).mp hh))]
  rcases lt_trichotomy (model (jsTrim text)).length 384 with hlt | heq | hgt
  · rw [if_pos (by omega), if_pos hlt]
    refine ⟨_, rfl, ?_, ?_, fun _ => rfl, fun hc => absurd hc (by omega),
      fun hc => absurd hc (by omega)⟩
    · simp only [List.length_append, List.length_replicate]
      omega
    · intro _
      rw [sumSq_append, sumSq_replicate_zero, add_zero, hnorm]
  · rw [if_neg (by omega)]
    exact ⟨_, rfl, heq, fun _ => hnorm, fun hc => absurd hc (by omega),
      fun hc => absurd hc (by omega), fun _ => rfl⟩
  · rw [if_pos (by omega), if_neg (by omega)]
    refine ⟨_, rfl, ?_, fun hc => absurd hc (by omega), ?_, fun _ => rfl, fun hc => absurd hc (by omega)⟩
    · simp only [List.length_take]
      omega
    · intro hc
      exact absurd hc (by omega)


/-- Witness for C6: input `"a"` with a model returning the unit vector
`[1]` (length 1, so the encoder pads with zeros up to 384). -/
theorem generateEmbedding_contract_witness :
    (jsTrim "a" ≠ "" ∧ sumSq ((fun _ : String => [(1:ℝ)]) (jsTrim "a")) = 1)
    ∧ ∃ v, generateEmbedding (fun _ : String => [(1:ℝ)]) "a" 384 = Except.ok v
        ∧ v.length = 384
        ∧ (((fun _ : String => [(1:ℝ)]) (jsTrim "a")).length ≤ 384 → sumSq v = 1)
        ∧ (((fun _ : String => [(1:ℝ)]) (jsTrim "a")).length < 384 →
            v = (fun _ : String => [(1:ℝ)]) (jsTrim "a")
              ++ List.replicate (384 - ((fun _ : String => [(1:ℝ)]) (jsTrim "a")).length) 0)
        ∧ (384 < ((fun _ : String => [(1:ℝ)]) (jsTrim "a")).length →
            v = ((fun _ : String => [(1:ℝ)]) (jsTrim "a")).take 384)
        ∧ (((fun _ : String => [(1:ℝ)]) (jsTrim "a")).length = 384 →
            v = (fun _ : String => [(1:ℝ)]) (jsTrim "a")) :=
  ⟨⟨by decide, by norm_num [sumSq]⟩,
   generateEmbedding_contract (fun _ : String => [(1:ℝ)]) "a" (by decide) (by norm_num [sumSq])⟩

/-- Claim C7: the Stack Overflow relevance heuristic is the rounded sum
of five times the vote score, ten times the answer count, a bonus of 20
for an answered question, a bonus of 30 when an accepted answer is
present, a logarithmic view-count term, and a fixed recency bonus of 10
added exactly when the question is less than 365 days old. -/
theorem calculateStackOverflowRelevance_formula (now : ℝ) (item : SOApiItem) :
    calculateStackOverflowRelevance now item =
      round (item.score * 5 + item.answer_count * 10
        + (if item.is_answered then (20:ℝ) else 0)
        + (if item.accepted_answer_id.isSome then (30:ℝ) else 0)
        + Real.logb 10 (item.view_count + 1) * 5
        + (if (now - item.creation_date * 1000) / (1000 * 60 * 60 * 24) < 365
            then (10:ℝ) else 0)) := by
  unfold calculateStackOverflowRelevance
  by_cases h1 : item.is_answered <;>
    by_cases h2 : item.accepted_answer_id.isSome <;>
    by_cases h3 : (now - item.creation_date * 1000) / (1000 * 60 * 60 * 24) < 365 <;>
    simp [h1, h2, h3]

/-- Claim C2: rank fusion gives every internal-DB candidate the fused
score `(relevance_score || similarity * 100) + 100` (its relevance or
similarity percentage plus the fixed internal bonus 100), every Stack
Overflow candidate its own relevance score, and every YouTube candidate
the flat score 30; all candidates are placed into one list, sorted
descending by fused score and truncated to the top 10 (so nothing is
dropped when at most 10 candidates exist). -/
theorem combineAndRankResults_spec (internal : List InternalItem)
    (stackoverflow : List StackOverflowItem) (youtube : List YouTubeItem) :
    (combineAndRankResults internal stackoverflow youtube).length ≤ 10
    ∧ (combineAndRankResults internal stackoverflow youtube).Pairwise
        (fun a b => b.rank_score ≤ a.rank_score)
    ∧ (∀ f ∈ combineAndRankResults internal stackoverflow youtube,
        (∀ item, f.payload = FusedPayload.internal item →
            f.rank_score = jsOr item.relevance_score (item.similarity * 100) + 100)
        ∧ (∀ item, f.payload = FusedPayload.stackoverflow item →
            f.rank_score = item.relevance_score)
        ∧ (∀ item, f.payload = FusedPayload.youtube item → f.rank_score = 30))
    ∧ (internal.length + stackoverflow.length + youtube.length ≤ 10 →
        (combineAndRankResults internal stackoverflow youtube).Perm
          (allCandidates internal stackoverflow youtube)) := by
  refine ⟨combine_length_le internal stackoverflow youtube,
    combine_sorted internal stackoverflow youtube, ?_, ?_⟩
  · intro f hf
    have h := combine_scores hf
    exact ⟨fun item hp => (h.1 item hp).2, fun item hp => (h.2.1 item hp).2,
      fun item hp => (h.2.2 item hp).2⟩
  · intro hle
    have hlen : ((allCandidates internal stackoverflow youtube).mergeSort rankLE).length ≤ 10 := by
      rw [List.length_mergeSort, allCandidates_length]
      exact hle
    unfold combineAndRankResults
    rw [List.take_of_length_le hlen]
    exact List.mergeSort_perm _ _

/-- Witness for C2: one candidate from each source; with three candidates
nothing is truncated and the fused list is a permutation of all of them. -/
theorem combineAndRankResults_spec_witness :
    (([⟨1, some 50, 0⟩] : List InternalItem).length
        + ([⟨"so", 40⟩] : List StackOverflowItem).length
        + ([⟨"yt"⟩] : List YouTubeItem).length ≤ 10)
    ∧ (combineAndRankResults [⟨1, some 50, 0⟩] [⟨"so", 40⟩] [⟨"yt"⟩]).Perm
        (allCandidates [⟨1, some 50, 0⟩] [⟨"so", 40⟩] [⟨"yt"⟩]) :=
  ⟨by norm_num,
   (combineAndRankResults_spec [⟨1, some 50, 0⟩] [⟨"so", 40⟩] [⟨"yt"⟩]).2.2.2 (by norm_num)⟩

lemma jsOr_nonneg {x : Option ℚ} {fallback : ℚ}
    (hx : ∀ r, x = some r → 0 ≤ r) (hf : 0 ≤ fallback) : 0 ≤ jsOr x fallback := by
  cases x with
  | none => exact hf
  | some r =>
    simp only [jsOr]
    by_cases hr : r = 0
    · rw [if_pos hr]
      exact hf
    · rw [if_neg hr]
      exact hx r rfl

/-- Claim C10: when every internal candidate has a nonnegative relevance
score and a nonnegative similarity, every internal-DB entry of the fused
list has rank score at least 100 while every YouTube entry has the
constant rank score 30, and in the fused ordering no YouTube entry ever
precedes an internal-DB entry — an internal hit is never outranked by a
YouTube hit. -/
theorem internal_outranks_youtube (internal : List InternalItem)
    (stackoverflow : List StackOverflowItem) (youtube : List YouTubeItem)
    (h : ∀ item ∈ internal,
        (∀ r, item.relevance_score = some r → 0 ≤ r) ∧ 0 ≤ item.similarity) :
    (∀ f ∈ combineAndRankResults internal stackoverflow youtube,
        (∀ item, f.payload = FusedPayload.internal item → 100 ≤ f.rank_score)
        ∧ (∀ item, f.payload = FusedPayload.youtube item → f.rank_score = 30))
    ∧ (combineAndRankResults internal stackoverflow youtube).Pairwise
        (fun a b => ∀ ity itn, a.payload = FusedPayload.youtube ity →
          b.payload ≠ FusedPayload.internal itn) := by
  have hbound : ∀ f ∈ combineAndRankResults internal stackoverflow youtube,
      (∀ item, f.payload = FusedPayload.internal item → 100 ≤ f.rank_score)
      ∧ (∀ item, f.payload = FusedPayload.youtube item → f.rank_score = 30) := by
    intro f hf
    have hs := combine_scores hf
    constructor
    · intro item hp
      obtain ⟨hmem, hsc⟩ := hs.1 item hp
      have h0 : 0 ≤ jsOr item.relevance_score (item.similarity * 100) :=
        jsOr_nonneg (h item hmem).1 (by nlinarith [(h item hmem).2])
      linarith [hsc.ge, hsc.le, h0]
    · intro item hp
      exact (hs.2.2 item hp).2
  refine ⟨hbound, ?_⟩
  have hsorted := combine_sorted internal stackoverflow youtube
  refine hsorted.imp_of_mem ?_
  intro a b ha hb hab ity itn hay hbn
  have ha30 : a.rank_score = 30 := (hbound a ha).2 ity hay
  have hb100 : 100 ≤ b.rank_score := (hbound b hb).1 itn hbn
  rw [ha30] at hab
  linarith

/-- Witness for C10: one internal candidate with nonnegative relevance
and similarity, no Stack Overflow results and one YouTube video. -/
theorem internal_outranks_youtube_witness :
    (∀ item ∈ ([⟨1, some 50, 0⟩] : List InternalItem),
        (∀ r, item.relevance_score = some r → 0 ≤ r) ∧ 0 ≤ item.similarity)
    ∧ ((∀ f ∈ combineAndRankResults [⟨1, some 50, 0⟩] [] [⟨"yt"⟩],
          (∀ item, f.payload = FusedPayload.internal item → 100 ≤ f.rank_score)
          ∧ (∀ item, f.payload = FusedPayload.youtube item → f.rank_score = 30))
        ∧ (combineAndRankResults [⟨1, some 50, 0⟩] [] [⟨"yt"⟩]).Pairwise
            (fun a b => ∀ ity itn, a.payload = FusedPayload.youtube ity →
              b.payload ≠ FusedPayload.internal itn)) :=
  ⟨by
    intro item hmem
    simp only [List.mem_singleton] at hmem
    subst hmem
    exact ⟨fun r hr => by simp at hr; simp [← hr], le_refl 0⟩,
   internal_outranks_youtube [⟨1, some 50, 0⟩] [] [⟨"yt"⟩] (by
    intro item hmem
    simp only [List.mem_singleton] at hmem
    subst hmem
    exact ⟨fun r hr => by simp at hr; simp [← hr], le_refl 0⟩)⟩

/-- Claim C3: the ranking step of `semanticSearch` keeps exactly the
candidates with similarity at least the threshold (a strict floor: below
drops, at-or-above passes), sorts the survivors descending by similarity
with ties keeping their original relative order (stability, expressed on
the untruncated list by the filter equations), and returns at most
`limit` entries; every returned entry comes from the input and clears the
threshold. -/
theorem topMatches_spec {α : Type} [LinearOrder α]
    (similarities : List (SimEntry α)) (threshold : α) (lim : ℕ) :
    (topMatches similarities threshold lim).length ≤ lim
    ∧ (∀ e ∈ topMatches similarities threshold lim,
        threshold ≤ e.similarity ∧ e ∈ similarities)
    ∧ (topMatches similarities threshold lim).Pairwise
        (fun a b => b.similarity ≤ a.similarity)
    ∧ (similarities.length ≤ lim →
        (topMatches similarities threshold lim).Perm
          (similarities.filter (fun e => threshold ≤ e.similarity))
        ∧ ∀ sc : α,
            (topMatches similarities threshold lim).filter (fun e => e.similarity = sc)
              = (similarities.filter (fun e => threshold ≤ e.similarity)).filter
                  (fun e => e.similarity = sc)) := by
  refine ⟨List.length_take_le _ _, ?_, ?_, ?_⟩
  · intro e he
    have h1 : e ∈ (similarities.filter
        (fun e => threshold ≤ e.similarity)).mergeSort simLE :=
      (List.take_sublist _ _).subset he
    have h2 : e ∈ similarities.filter (fun e => threshold ≤ e.similarity) :=
      List.mem_mergeSort.mp h1
    exact ⟨by simpa using List.of_mem_filter h2, List.mem_of_mem_filter h2⟩
  · have h : ((similarities.filter
        (fun e => threshold ≤ e.similarity)).mergeSort simLE).Pairwise
        (fun a b => simLE a b) :=
      List.sorted_mergeSort simLE_trans simLE_total _
    exact (h.imp (fun hab => by simpa [simLE] using hab)).sublist (List.take_sublist _ _)
  · intro hle
    have hlen : ((similarities.filter
        (fun e => threshold ≤ e.similarity)).mergeSort simLE).length ≤ lim := by
      rw [List.length_mergeSort]
      exact le_trans (List.length_filter_le _ _) hle
    have htake : topMatches similarities threshold lim =
        (similarities.filter (fun e => threshold ≤ e.similarity)).mergeSort simLE := by
      unfold topMatches
      exact List.take_of_length_le hlen
    constructor
    · rw [htake]
      exact List.mergeSort_perm _ _
    · intro sc
      rw [htake]
      apply filter_mergeSort_of_tied simLE simLE_trans simLE_total
      intro a b ha hb
      simp only [decide_eq_true_eq] at ha hb
      simp only [simLE, ha, hb, decide_eq_true_eq]
      exact le_refl sc

/-- Witness for C3: two candidates, one below the threshold; with limit 5
nothing is truncated, the survivor list is a permutation of the filtered
input and the tie classes coincide. -/
theorem topMatches_spec_witness :
    (([⟨1, (1:ℚ)⟩, ⟨2, 3⟩] : List (SimEntry ℚ)).length ≤ 5)
    ∧ (topMatches [⟨1, (1:ℚ)⟩, ⟨2, 3⟩] 2 5).Perm
        (([⟨1, (1:ℚ)⟩, ⟨2, 3⟩] : List (SimEntry ℚ)).filter
          (fun e => 2 ≤ e.similarity)) :=
  ⟨by norm_num,
   ((topMatches_spec [⟨1, (1:ℚ)⟩, ⟨2, 3⟩] 2 5).2.2.2 (by norm_num)).1⟩

/-- The list extracted from a settled outcome by
`r.status === 'fulfilled' ? r.value : []`. -/
def settledList {β : Type} : Settled (List β) → List β
  | Settled.fulfilled v => v
  | Settled.rejected _ => []

lemma searchAllSources_ok (query timestamp : String) (hq : query ≠ "")
    (internalResults : Settled (List InternalItem))
    (stackOverflowResults : Settled (List StackOverflowItem))
    (youtubeResults : Settled (List YouTubeItem)) :
    searchAllSources query timestamp internalResults stackOverflowResults youtubeResults =
      Except.ok
        { query := query
          timestamp := timestamp
          total_results := (settledList internalResults).length
            + (settledList stackOverflowResults).length + (settledList youtubeResults).length
          internal_count := (settledList internalResults).length
          internal_results := settledList internalResults
          stackoverflow_count := (settledList stackOverflowResults).length
          stackoverflow_results := settledList stackOverflowResults
          youtube_count := (settledList youtubeResults).length
          youtube_results := settledList youtubeResults
          top_results := combineAndRankResults (settledList internalResults)
            (settledList stackOverflowResults) (settledList youtubeResults) } := by
  unfold searchAllSources
  rw [if_neg hq]
  cases internalResults <;> cases stackOverflowResults <;> cases youtubeResults <;> rfl

/-- Claim C1: for every query and every combination of settled source
outcomes, `searchAllSources` returns a combined result without raising: a
fulfilled source contributes its hits (its count is the number of hits),
a rejected source degrades to the empty result set (count 0) without
aborting the aggregation, and `top_results` holds at most 10 entries
sorted descending by fused score.  In particular, with the internal
search fulfilled with 2 hits, Stack Overflow rejected and YouTube
fulfilled with 1 hit, the counts are 2, 0 and 1. -/
theorem searchAllSources_settles (query timestamp : String) (hq : query ≠ "")
    (internalResults : Settled (List InternalItem))
    (stackOverflowResults : Settled (List StackOverflowItem))
    (youtubeResults : Settled (List YouTubeItem)) :
    ∃ c, searchAllSources query timestamp internalResults stackOverflowResults youtubeResults
        = Except.ok c
      ∧ (∀ v, internalResults = Settled.fulfilled v → c.internal_count = v.length)
      ∧ (∀ msg, internalResults = Settled.rejected msg →
          c.internal_count = 0 ∧ c.internal_results = [])
      ∧ (∀ v, stackOverflowResults = Settled.fulfilled v → c.stackoverflow_count = v.length)
      ∧ (∀ msg, stackOverflowResults = Settled.rejected msg →
          c.stackoverflow_count = 0 ∧ c.stackoverflow_results = [])
      ∧ (∀ v, youtubeResults = Settled.fulfilled v → c.youtube_count = v.length)
      ∧ (∀ msg, youtubeResults = Settled.rejected msg →
          c.youtube_count = 0 ∧ c.youtube_results = [])
      ∧ c.total_results = c.internal_count + c.stackoverflow_count + c.youtube_count
      ∧ c.top_results.length ≤ 10
      ∧ c.top_results.Pairwise (fun a b => b.rank_score ≤ a.rank_score) := by
  refine ⟨_, searchAllSources_ok query timestamp hq internalResults stackOverflowResults
    youtubeResults, ?_, ?_, ?_, ?_, ?_, ?_, rfl, combine_length_le _ _ _, combine_sorted _ _ _⟩
  · intro v hv
    rw [hv]
    rfl
  · intro msg hv
    rw [hv]
    exact ⟨rfl, rfl⟩
  · intro v hv
    rw [hv]
    rfl
  · intro msg hv
    rw [hv]
    exact ⟨rfl, rfl⟩
  · intro v hv
    rw [hv]
    rfl
  · intro msg hv
    rw [hv]
    exact ⟨rfl, rfl⟩

/-- Witness for C1, in the scenario of the spec: internal search
fulfilled with 2 hits, Stack Overflow rejected with a simulated timeout,
YouTube fulfilled with 1 hit. -/
theorem searchAllSources_settles_witness :
    ("netzwerk" ≠ "")
    ∧ ∃ c, searchAllSources "netzwerk" "2026-01-01T00:00:00Z"
          (Settled.fulfilled [⟨1, some 80, (4:ℚ)/5⟩, ⟨2, some 60, (3:ℚ)/5⟩])
          (Settled.rejected "timeout of 10000ms exceeded")
          (Settled.fulfilled [⟨"video"⟩])
        = Except.ok c
      ∧ c.internal_count = 2 ∧ c.stackoverflow_count = 0 ∧ c.youtube_count = 1
      ∧ c.top_results.length ≤ 10
      ∧ c.top_results.Pairwise (fun a b => b.rank_score ≤ a.rank_score) := by
  have hq : "netzwerk" ≠ "" := by decide
  obtain ⟨c, hok, hif, hir, _, hsr, hyf, _, -, hlen, hsort⟩ :=
    searchAllSources_settles "netzwerk" "2026-01-01T00:00:00Z" hq
      (Settled.fulfilled [⟨1, some 80, (4:ℚ)/5⟩, ⟨2, some 60, (3:ℚ)/5⟩])
      (Settled.rejected "timeout of 10000ms exceeded")
      (Settled.fulfilled [⟨"video"⟩])
  exact ⟨hq, c, hok, hif _ rfl, (hsr _ rfl).1, hyf _ rfl, hlen, hsort⟩

lemma computeSimilarities_eq_nil {jsonParse : String → Except String JsonVal}
    {queryEmbedding : List ℝ} :
    ∀ {embeddings : List EmbRow},
    (∀ emb ∈ embeddings, rowSimilarity jsonParse queryEmbedding emb = none) →
    computeSimilarities jsonParse queryEmbedding embeddings = []
  | [], _ => rfl
  | e :: es, hall => by
    have h1 := hall e (List.mem_cons_self e es)
    have h2 : ∀ emb ∈ es, rowSimilarity jsonParse queryEmbedding emb = none :=
      fun emb hm => hall emb (List.mem_cons_of_mem e hm)
    simp only [computeSimilarities, List.map_cons, h1, List.reduceOption_cons_of_none]
    exact computeSimilarities_eq_nil h2

/-- Claim C9: in the similarity pass of `semanticSearch` (with a
384-dimension query embedding), a row whose stored vector is a string
that fails to parse, or parses to a non-array value, is silently mapped
to `null` and hence excluded from the candidate set — it never makes the
pass throw — while a row that yields a numeric array is repaired by
zero-padding or truncation to 384 components when its length disagrees
with the query, so `cosineSimilarity` always receives equal-length
vectors and returns a value, never a dimension error. -/
theorem semanticSearch_row_robustness (jsonParse : String → Except String JsonVal)
    (queryEmbedding : List ℝ) (hq : queryEmbedding.length = 384) :
    (∀ emb : EmbRow, ∀ s, emb.vector = DbVec.str s →
        ((∃ msg, jsonParse s = Except.error msg) ∨ jsonParse s = Except.ok JsonVal.other) →
        rowSimilarity jsonParse queryEmbedding emb = none)
    ∧ (∀ emb : EmbRow, ∀ v,
        (emb.vector = DbVec.arr v
          ∨ ∃ s, emb.vector = DbVec.str s ∧ jsonParse s = Except.ok (JsonVal.arr v)) →
        ∃ dbVector sim, dbVector.length = 384
          ∧ (v.length = queryEmbedding.length → dbVector = v)
          ∧ (v.length ≠ queryEmbedding.length →
              dbVector = if v.length < 384 then v ++ List.replicate (384 - v.length) 0
                else v.take 384)
          ∧ cosineSimilarity queryEmbedding dbVector = Except.ok sim
          ∧ rowSimilarity jsonParse queryEmbedding emb = some ⟨emb.problem_id, sim⟩)
    ∧ (∀ embeddings : List EmbRow,
        (∀ emb ∈ embeddings, rowSimilarity jsonParse queryEmbedding emb = none) →
        computeSimilarities jsonParse queryEmbedding embeddings = []) := by
  refine ⟨?_, ?_, fun _ hall => computeSimilarities_eq_nil hall⟩
  · intro emb s hvec hbad
    unfold rowSimilarity
    rw [hvec]
    rcases hbad with ⟨msg, hmsg⟩ | hother
    · simp [hmsg]
    · simp [hother]
  · intro emb v hsrc
    have hparsed : (match emb.vector with
        | DbVec.arr w => Except.ok (JsonVal.arr w)
        | DbVec.str s => jsonParse s) = Except.ok (JsonVal.arr v) := by
      rcases hsrc with harr | ⟨s, hs, hps⟩
      · rw [harr]
      · rw [hs]
        exact hps
    have hlen : (if v.length ≠ queryEmbedding.length then
        (if v.length < 384 then v ++ List.replicate (384 - v.length) 0 else v.take 384)
        else v).length = 384 := by
      by_cases h1 : v.length ≠ queryEmbedding.length
      · rw [if_pos h1]
        by_cases h2 : v.length < 384
        · rw [if_pos h2]
          simp only [List.length_append, List.length_replicate]
          omega
        · rw [if_neg h2]
          simp only [List.length_take]
          omega
      · rw [if_neg h1]
        push_neg at h1
        omega
    obtain ⟨sim, hsim⟩ := cosineSimilarity_ok_of_length_eq
      (show queryEmbedding.length = _ by rw [hlen, hq])
    refine ⟨_, sim, hlen, ?_, ?_, hsim, ?_⟩
    · intro h
      rw [if_neg (by simpa using h)]
    · intro h
      rw [if_pos h]
    · unfold rowSimilarity
      rw [hparsed]
      simp only []
      rw [hsim]

/-- Witness for C9: a 384-dimension zero query embedding against a single
row whose stored vector is an unparseable string; the row is excluded and
the candidate set is empty. -/
theorem semanticSearch_row_robustness_witness :
    ((List.replicate 384 (0:ℝ)).length = 384)
    ∧ rowSimilarity (fun _ => Except.error "Unexpected token")
        (List.replicate 384 (0:ℝ)) ⟨1, 7, DbVec.str "not json"⟩ = none
    ∧ computeSimilarities (fun _ => Except.error "Unexpected token")
        (List.replicate 384 (0:ℝ)) [⟨1, 7, DbVec.str "not json"⟩] = [] := by
  have hq : (List.replicate 384 (0:ℝ)).length = 384 := List.length_replicate _ _
  have h := semanticSearch_row_robustness (fun _ => Except.error "Unexpected token") _ hq
  refine ⟨hq, ?_, ?_⟩
  · exact h.1 ⟨1, 7, DbVec.str "not json"⟩ "not json" rfl (Or.inl ⟨_, rfl⟩)
  · refine h.2.2 _ ?_
    intro emb hm
    simp only [List.mem_singleton] at hm
    subst hm
    exact h.1 _ "not json" rfl (Or.inl ⟨_, rfl⟩)

end Eurika
